import Mathlib

/-!
Verification of `src/species_management/get_species.py`.

The script converts a search area to a radius with `math.sqrt(area_km2 / math.pi)`,
builds a query-parameter dictionary for an external observation-counts endpoint,
and maps each row of the JSON response into a flat species record.

Modelling choices:
- Python floats are modelled as real numbers.
- `math.sqrt` raises a `ValueError` (math domain error) on negative input; we
  model it as an `Option`-valued function returning `none` exactly there.
- The params dictionary is modelled as an association list in insertion order;
  dictionary values are a small sum type `PVal`.
- The external collaborator `get_observation_species_counts` is a parameter:
  a function from the constructed params to a response.
-/

/-- Python `math.sqrt`: `none` models the `ValueError: math domain error`
raised on negative input; otherwise the real square root. -/
noncomputable def math_sqrt (x : ℝ) : Option ℝ :=
  if x < 0 then none else some (Real.sqrt x)

/-- `area_to_radius_km` (get_species.py, lines 4-5):
`return math.sqrt(area_km2 / math.pi)`. -/
noncomputable def area_to_radius_km (area_km2 : ℝ) : Option ℝ :=
  math_sqrt (area_km2 / Real.pi)

/-- A value stored in the Python params dictionary. -/
inductive PVal where
  | real (x : ℝ)
  | str (s : String)
  | int (n : Int)
  | bool (b : Bool)

/-- A `taxon` object of a response row; `preferred_common_name` may be absent
(`r["taxon"].get("preferred_common_name")` then yields `None`). -/
structure Taxon where
  id : Int
  name : String
  rank : String
  preferred_common_name : Option String
  deriving DecidableEq, Repr

/-- One entry of the `results` list of the collaborator response. -/
structure ResultRow where
  taxon : Taxon
  count : Int
  deriving DecidableEq, Repr

/-- The collaborator response `{results: [...]}`. -/
structure ApiResponse where
  results : List ResultRow
  deriving DecidableEq, Repr

/-- The record built for each result row (get_species.py, lines 34-40). -/
structure SpeciesRecord where
  taxon_id : Int
  scientific_name : String
  common_name : Option String
  rank : String
  obs_count : Int
  deriving DecidableEq, Repr

/-- Lines 34-40: the dictionary built from one result row `r`. -/
def rowToRecord (r : ResultRow) : SpeciesRecord :=
  { taxon_id := r.taxon.id
    scientific_name := r.taxon.name
    common_name := r.taxon.preferred_common_name
    rank := r.taxon.rank
    obs_count := r.count }

/-- Lines 16-29: the params dictionary handed to the collaborator, as an
association list in insertion order.  The two trailing entries are present
exactly when the corresponding argument `is not None`. -/
def fetch_species_params (lat lng radius : ℝ)
    (threatened introduced : Option Bool) : List (String × PVal) :=
  [("lat", PVal.real lat), ("lng", PVal.real lng), ("radius", PVal.real radius),
   ("quality_grade", PVal.str "research"), ("per_page", PVal.int 200),
   ("page", PVal.str "all")]
  ++ (match threatened with
      | some b => [("threatened", PVal.bool b)]
      | none => [])
  ++ (match introduced with
      | some b => [("introduced", PVal.bool b)]
      | none => [])

/-- `fetch_species` (lines 7-42).  The collaborator `api` models
`get_observation_species_counts`; `none` models the uncaught `ValueError`
raised by `area_to_radius_km` before any network activity. -/
noncomputable def fetch_species (lat lng area_km2 : ℝ)
    (threatened introduced : Option Bool)
    (api : List (String × PVal) → ApiResponse) : Option (List SpeciesRecord) :=
  match area_to_radius_km area_km2 with
  | none => none
  | some radius =>
      some (((api (fetch_species_params lat lng radius threatened introduced)).results).map
        rowToRecord)

/-- Lines 52-58: `print(s["common_name"] or s["scientific_name"])`.  Python
`or` yields the left operand when it is truthy; for a `str | None` value,
`None` and the empty string are falsy. -/
def display_name (s : SpeciesRecord) : String :=
  match s.common_name with
  | none => s.scientific_name
  | some c => if c = "" then s.scientific_name else c

/-- Helper: on nonnegative input the domain check passes and
`area_to_radius_km` returns the real square root of `area / π`. -/
theorem area_to_radius_km_of_nonneg (a : ℝ) (h : 0 ≤ a) :
    area_to_radius_km a = some (Real.sqrt (a / Real.pi)) := by
  unfold area_to_radius_km math_sqrt
  rw [if_neg (not_lt.mpr (div_nonneg h Real.pi_pos.le))]

/-- C1: for every `area_km2 ≥ 0`, `area_to_radius_km area_km2` succeeds and
equals `sqrt(area_km2 / π)`, and `area_to_radius_km 0 = 0`. -/
theorem area_to_radius_eq_sqrt (a : ℝ) (h : 0 ≤ a) :
    area_to_radius_km a = some (Real.sqrt (a / Real.pi)) ∧
    area_to_radius_km 0 = some 0 := by
  refine ⟨area_to_radius_km_of_nonneg a h, ?_⟩
  rw [area_to_radius_km_of_nonneg 0 le_rfl, zero_div, Real.sqrt_zero]

/-- C1 witness at `area_km2 = 10`. -/
theorem area_to_radius_eq_sqrt_witness :
    area_to_radius_km 10 = some (Real.sqrt (10 / Real.pi)) ∧
    area_to_radius_km 0 = some 0 :=
  area_to_radius_eq_sqrt 10 (by norm_num)

/-- The mock collaborator response of the spec:
`{"results":[{"taxon":{"id":1,"name":"Vulpes vulpes","rank":"species",
"preferred_common_name":"Red fox"},"count":5}]}`. -/
def mockResponse : ApiResponse :=
  ⟨[⟨⟨1, "Vulpes vulpes", "species", some "Red fox"⟩, 5⟩]⟩

/-- C2: against a collaborator answering the mock response, `fetch_species`
returns exactly one record with taxon_id 1, scientific name "Vulpes vulpes",
common name "Red fox", rank "species" and observation count 5. -/
theorem fetch_species_mock_response (lat lng a : ℝ) (t i : Option Bool) (h : 0 ≤ a) :
    fetch_species lat lng a t i (fun _ => mockResponse)
      = some [{ taxon_id := 1, scientific_name := "Vulpes vulpes",
                common_name := some "Red fox", rank := "species", obs_count := 5 }] := by
  unfold fetch_species
  rw [area_to_radius_km_of_nonneg a h]
  rfl

/-- C2 witness at a concrete call. -/
theorem fetch_species_mock_response_witness :
    fetch_species 0 0 0 none none (fun _ => mockResponse)
      = some [{ taxon_id := 1, scientific_name := "Vulpes vulpes",
                common_name := some "Red fox", rank := "species", obs_count := 5 }] :=
  fetch_species_mock_response 0 0 0 none none le_rfl

/-- C3: with `threatened = True` and `introduced` left unset, the constructed
params contain the key "threatened" with value `true`, omit the key
"introduced", and `fetch_species` invokes the collaborator on exactly that
parameter set. -/
theorem fetch_species_threatened_only (lat lng a : ℝ) (h : 0 ≤ a) :
    (fetch_species_params lat lng (Real.sqrt (a / Real.pi)) (some true) none).lookup
        "threatened" = some (PVal.bool true) ∧
    (fetch_species_params lat lng (Real.sqrt (a / Real.pi)) (some true) none).lookup
        "introduced" = none ∧
    ∀ api, fetch_species lat lng a (some true) none api
      = some ((api (fetch_species_params lat lng (Real.sqrt (a / Real.pi))
          (some true) none)).results.map rowToRecord) := by
  refine ⟨by simp [fetch_species_params, List.lookup],
    by simp [fetch_species_params, List.lookup], fun api => ?_⟩
  unfold fetch_species
  rw [area_to_radius_km_of_nonneg a h]

/-- C3 witness at a concrete call. -/
theorem fetch_species_threatened_only_witness :
    (fetch_species_params 0 0 (Real.sqrt (0 / Real.pi)) (some true) none).lookup
        "threatened" = some (PVal.bool true) ∧
    (fetch_species_params 0 0 (Real.sqrt (0 / Real.pi)) (some true) none).lookup
        "introduced" = none ∧
    ∀ api, fetch_species 0 0 0 (some true) none api
      = some ((api (fetch_species_params 0 0 (Real.sqrt (0 / Real.pi))
          (some true) none)).results.map rowToRecord) :=
  fetch_species_threatened_only 0 0 0 le_rfl

/-- C4: with neither flag set, the constructed params omit both optional keys
and always carry quality_grade "research", per_page 200 and page "all", and
`fetch_species` invokes the collaborator on exactly that parameter set. -/
theorem fetch_species_no_flags (lat lng a : ℝ) (h : 0 ≤ a) :
    (fetch_species_params lat lng (Real.sqrt (a / Real.pi)) none none).lookup
        "threatened" = none ∧
    (fetch_species_params lat lng (Real.sqrt (a / Real.pi)) none none).lookup
        "introduced" = none ∧
    (fetch_species_params lat lng (Real.sqrt (a / Real.pi)) none none).lookup
        "quality_grade" = some (PVal.str "research") ∧
    (fetch_species_params lat lng (Real.sqrt (a / Real.pi)) none none).lookup
        "per_page" = some (PVal.int 200) ∧
    (fetch_species_params lat lng (Real.sqrt (a / Real.pi)) none none).lookup
        "page" = some (PVal.str "all") ∧
    ∀ api, fetch_species lat lng a none none api
      = some ((api (fetch_species_params lat lng (Real.sqrt (a / Real.pi))
          none none)).results.map rowToRecord) := by
  refine ⟨by simp [fetch_species_params, List.lookup],
    by simp [fetch_species_params, List.lookup],
    by simp [fetch_species_params, List.lookup],
    by simp [fetch_species_params, List.lookup],
    by simp [fetch_species_params, List.lookup], fun api => ?_⟩
  unfold fetch_species
  rw [area_to_radius_km_of_nonneg a h]

/-- C4 witness at a concrete call. -/
theorem fetch_species_no_flags_witness :
    (fetch_species_params 0 0 (Real.sqrt (0 / Real.pi)) none none).lookup
        "threatened" = none ∧
    (fetch_species_params 0 0 (Real.sqrt (0 / Real.pi)) none none).lookup
        "introduced" = none ∧
    (fetch_species_params 0 0 (Real.sqrt (0 / Real.pi)) none none).lookup
        "quality_grade" = some (PVal.str "research") ∧
    (fetch_species_params 0 0 (Real.sqrt (0 / Real.pi)) none none).lookup
        "per_page" = some (PVal.int 200) ∧
    (fetch_species_params 0 0 (Real.sqrt (0 / Real.pi)) none none).lookup
        "page" = some (PVal.str "all") ∧
    ∀ api, fetch_species 0 0 0 none none api
      = some ((api (fetch_species_params 0 0 (Real.sqrt (0 / Real.pi))
          none none)).results.map rowToRecord) :=
  fetch_species_no_flags 0 0 0 le_rfl

/-- C5: for every negative area, `area_to_radius_km` fails with the math
domain error, and `fetch_species` therefore fails regardless of the
collaborator, before any network activity. -/
theorem fetch_species_neg_area_fails (a : ℝ) (h : a < 0) :
    area_to_radius_km a = none ∧
    ∀ (lat lng : ℝ) (t i : Option Bool) (api : List (String × PVal) → ApiResponse),
      fetch_species lat lng a t i api = none := by
  have h1 : area_to_radius_km a = none := by
    unfold area_to_radius_km math_sqrt
    rw [if_pos (div_neg_of_neg_of_pos h Real.pi_pos)]
  refine ⟨h1, fun lat lng t i api => ?_⟩
  unfold fetch_species
  rw [h1]

/-- C5 witness at `area_km2 = -1`. -/
theorem fetch_species_neg_area_fails_witness :
    area_to_radius_km (-1) = none ∧
    ∀ (lat lng : ℝ) (t i : Option Bool) (api : List (String × PVal) → ApiResponse),
      fetch_species lat lng (-1) t i api = none :=
  fetch_species_neg_area_fails (-1) (by norm_num)

/-- A concrete result row whose taxon object lacks `preferred_common_name`. -/
def noCommonNameRow : ResultRow :=
  ⟨⟨2, "Canis lupus", "species", none⟩, 3⟩

/-- C6: a result row whose taxon lacks `preferred_common_name` still yields a
record (no exception), that record has `common_name` absent, and the display
logic prints the scientific name in its place. -/
theorem missing_common_name_fallback (lat lng a : ℝ) (t i : Option Bool)
    (resp : ApiResponse) (r : ResultRow) (hr : r ∈ resp.results)
    (hc : r.taxon.preferred_common_name = none) (ha : 0 ≤ a) :
    ∃ recs, fetch_species lat lng a t i (fun _ => resp) = some recs ∧
      rowToRecord r ∈ recs ∧
      (rowToRecord r).common_name = none ∧
      display_name (rowToRecord r) = r.taxon.name := by
  refine ⟨resp.results.map rowToRecord, ?_, List.mem_map_of_mem _ hr, hc, ?_⟩
  · unfold fetch_species
    rw [area_to_radius_km_of_nonneg a ha]
  · simp [display_name, rowToRecord, hc]

/-- C6 witness at a concrete row and response. -/
theorem missing_common_name_fallback_witness :
    ∃ recs, fetch_species 0 0 0 none none (fun _ => ⟨[noCommonNameRow]⟩) = some recs ∧
      rowToRecord noCommonNameRow ∈ recs ∧
      (rowToRecord noCommonNameRow).common_name = none ∧
      display_name (rowToRecord noCommonNameRow) = noCommonNameRow.taxon.name :=
  missing_common_name_fallback 0 0 0 none none ⟨[noCommonNameRow]⟩ noCommonNameRow
    (List.mem_singleton.mpr rfl) rfl le_rfl

/-- C7: for nonnegative area, the radius placed into the constructed params is
exactly the value computed by `area_to_radius_km`, it equals `sqrt(area / π)`,
and it is nonnegative. -/
theorem radius_param_sqrt_nonneg (lat lng a : ℝ) (t i : Option Bool) (h : 0 ≤ a) :
    ∃ radius, area_to_radius_km a = some radius ∧
      (fetch_species_params lat lng radius t i).lookup "radius"
        = some (PVal.real radius) ∧
      radius = Real.sqrt (a / Real.pi) ∧ 0 ≤ radius := by
  refine ⟨Real.sqrt (a / Real.pi), area_to_radius_km_of_nonneg a h, ?_, rfl,
    Real.sqrt_nonneg _⟩
  simp [fetch_species_params, List.lookup]

/-- C7 witness at a concrete call. -/
theorem radius_param_sqrt_nonneg_witness :
    ∃ radius, area_to_radius_km 0 = some radius ∧
      (fetch_species_params 0 0 radius none none).lookup "radius"
        = some (PVal.real radius) ∧
      radius = Real.sqrt (0 / Real.pi) ∧ 0 ≤ radius :=
  radius_param_sqrt_nonneg 0 0 0 none none le_rfl

/-- C8: for every collaborator response, `fetch_species` yields exactly one
record per row of `results`, in the same order: the output length equals the
number of rows and the record at each index is built from the row at the same
index. -/
theorem fetch_species_one_record_per_row (lat lng a : ℝ) (t i : Option Bool)
    (resp : ApiResponse) (h : 0 ≤ a) :
    ∃ recs, fetch_species lat lng a t i (fun _ => resp) = some recs ∧
      recs.length = resp.results.length ∧
      ∀ j : ℕ, recs[j]? = resp.results[j]?.map rowToRecord := by
  refine ⟨resp.results.map rowToRecord, ?_, List.length_map _ _, fun j => ?_⟩
  · unfold fetch_species
    rw [area_to_radius_km_of_nonneg a h]
  · simp [List.getElem?_map]

/-- C8 witness at a concrete call. -/
theorem fetch_species_one_record_per_row_witness :
    ∃ recs, fetch_species 0 0 0 none none (fun _ => mockResponse) = some recs ∧
      recs.length = mockResponse.results.length ∧
      ∀ j : ℕ, recs[j]? = mockResponse.results[j]?.map rowToRecord :=
  fetch_species_one_record_per_row 0 0 0 none none mockResponse le_rfl

/-- C9: each optional key appears in the constructed params exactly when the
corresponding argument is not `None` (the lookup result is the argument mapped
into a dictionary value); in particular passing `False` includes the key with
value `false` rather than omitting it. -/
theorem optional_keys_iff_not_none (lat lng radius : ℝ) (t i : Option Bool) :
    (fetch_species_params lat lng radius t i).lookup "threatened"
        = t.map PVal.bool ∧
    (fetch_species_params lat lng radius t i).lookup "introduced"
        = i.map PVal.bool ∧
    (fetch_species_params lat lng radius (some false) i).lookup "threatened"
        = some (PVal.bool false) ∧
    (fetch_species_params lat lng radius t (some false)).lookup "introduced"
        = some (PVal.bool false) := by
  refine ⟨?_, ?_, ?_, ?_⟩ <;> cases t <;> cases i <;>
    simp [fetch_species_params, List.lookup]

/-- C10: any falsy `common_name` -- absent or the empty string -- makes the
entry-point printing logic fall back to the scientific name. -/
theorem display_fallback_on_falsy (s : SpeciesRecord)
    (h : s.common_name = none ∨ s.common_name = some "") :
    display_name s = s.scientific_name := by
  rcases h with h | h <;> simp [display_name, h]

/-- A concrete record whose common name is the empty string. -/
def emptyCommonNameRecord : SpeciesRecord :=
  { taxon_id := 7, scientific_name := "Sturnus vulgaris", common_name := some "",
    rank := "species", obs_count := 12 }

/-- C10 witness at a record with an empty-string common name. -/
theorem display_fallback_on_falsy_witness :
    (emptyCommonNameRecord.common_name = none ∨
      emptyCommonNameRecord.common_name = some "") ∧
    display_name emptyCommonNameRecord = emptyCommonNameRecord.scientific_name :=
  ⟨Or.inr rfl, display_fallback_on_falsy emptyCommonNameRecord (Or.inr rfl)⟩
